import Mathlib

/-!
Verification development for the astronomical prayer-time calculator
(`src/prayerTimes/index.js`).

JavaScript numbers are idealised as real numbers.  The `NaN` produced by
`Math.acos` on an argument outside `[-1, 1]` (including the infinite
arguments produced by a zero denominator) is modelled by `Option ℝ`
(`none` = NaN); every arithmetic operation propagates `none`, and the
formatting layer renders `none` as the string `"NaN:NaN"`, exactly as the
JavaScript template literal renders a NaN hour and minute.  The one
remaining JavaScript division, the Newton correction `term3 / term4` of
`correctedHourAngle`, is modelled with real-field division (junk value `0`
at a zero denominator, where JavaScript would produce an infinity); the
spec notes the reference code does not guard this degenerate case and no
claim depends on it.
-/

/- ===== JavaScript numeric primitives ===== -/

/-- JS `Math.trunc` on a real, returned as a real (round toward zero). -/
noncomputable def truncR (x : ℝ) : ℝ := ((if 0 ≤ x then ⌊x⌋ else -⌊-x⌋ : ℤ) : ℝ)

/-- JS remainder `a % b` on reals: `a - b * trunc (a / b)`, sign of the dividend. -/
noncomputable def jsFmod (a b : ℝ) : ℝ := a - b * truncR (a / b)

/-- JS `Math.round`: round half toward positive infinity, `⌊x + 1/2⌋`. -/
noncomputable def jsRound (x : ℝ) : ℤ := ⌊x + 1 / 2⌋

/- ===== Decimal rendering of integers (models ECMAScript ToString) ===== -/

/-- Little-endian decimal digits of a natural number; the first argument is
structural fuel (`natDigits` supplies `n` itself, which is enough since the
value shrinks by a factor of ten each step). -/
def natDigitsAux : ℕ → ℕ → List ℕ
  | 0, _ => []
  | _ + 1, 0 => []
  | fuel + 1, n + 1 => (n + 1) % 10 :: natDigitsAux fuel ((n + 1) / 10)

/-- Little-endian decimal digits of `n` (empty for `0`). -/
def natDigits (n : ℕ) : List ℕ := natDigitsAux n n

/-- Value of a little-endian digit list. -/
def ofDigitsLE : List ℕ → ℕ
  | [] => 0
  | d :: ds => d + 10 * ofDigitsLE ds

/-- The decimal digit character for a digit value below ten. -/
def digitChar : ℕ → Char
  | 0 => '0'
  | 1 => '1'
  | 2 => '2'
  | 3 => '3'
  | 4 => '4'
  | 5 => '5'
  | 6 => '6'
  | 7 => '7'
  | 8 => '8'
  | 9 => '9'
  | _ => '*'

/-- Numeric value of a decimal digit character. -/
def digitVal (c : Char) : ℕ := c.toNat - 48

/-- Big-endian decimal parse of a character list (leading zeros are harmless
because the accumulator starts at zero). -/
def parseBE (cs : List Char) : ℕ := cs.foldl (fun acc c => 10 * acc + digitVal c) 0

/-- Models ECMAScript `ToString` on a nonnegative integral number:
most-significant-first decimal digits, `"0"` for zero. -/
def natRepr (n : ℕ) : String :=
  if n = 0 then "0" else String.mk ((natDigits n).reverse.map digitChar)

/-- Models ECMAScript `ToString` on an integral number: a leading minus sign
for negative values, then the decimal digits. -/
def intRepr (i : ℤ) : String :=
  if i < 0 then "-" ++ natRepr i.natAbs else natRepr i.toNat

/-- JS `String.prototype.padStart(2, "0")`. -/
def padStart2 (s : String) : String :=
  if s.length < 2 then String.mk (List.replicate (2 - s.length) '0') ++ s else s

/-- Decimal parse of a rendered integer, on a character list: an optional
leading minus sign, then big-endian digits. -/
def parseIntList : List Char → ℤ
  | [] => 0
  | c :: cs => if c = '-' then -(parseBE cs : ℤ) else (parseBE (c :: cs) : ℤ)

/-- Decimal parse of a rendered integer.  Used only to invert
`padStart2 ∘ intRepr`. -/
def parseIntStr (s : String) : ℤ := parseIntList s.data

/- ===== Formatting functions (source lines 219-234) ===== -/

/-- `formatTime`: round to the nearest minute, wrap the hour into a day. -/
noncomputable def formatTime (decimalHours : ℝ) : String :=
  let totalMinutes := jsRound (decimalHours * 60)
  let hours := ⌊jsFmod ((totalMinutes : ℝ) / 60) 24⌋
  let minutes := Int.tmod totalMinutes 60
  padStart2 (intRepr hours) ++ ":" ++ padStart2 (intRepr minutes)

/-- `formatTimeFloor`: truncate to the minute; the hour is NOT wrapped. -/
noncomputable def formatTimeFloor (decimalHours : ℝ) : String :=
  let hours := ⌊decimalHours⌋
  let minutes := ⌊(decimalHours - (hours : ℝ)) * 60⌋
  padStart2 (intRepr hours) ++ ":" ++ padStart2 (intRepr minutes)

/-- `formatTimeRound` is an alias of `formatTime` in the source. -/
noncomputable def formatTimeRound (decimalHours : ℝ) : String := formatTime decimalHours

/-- Round-formatting of an `Option`-valued time.  A `none` (JS NaN) prints as
`"NaN:NaN"`: `Math.round(NaN) = NaN`, `NaN % 60 = NaN`, `Math.floor(NaN) = NaN`,
`String(NaN) = "NaN"` and `"NaN".padStart(2, "0") = "NaN"`. -/
noncomputable def jsFormatRound : Option ℝ → String
  | none => "NaN:NaN"
  | some t => formatTimeRound t

/-- Floor-formatting of an `Option`-valued time; `none` prints as `"NaN:NaN"`. -/
noncomputable def jsFormatFloor : Option ℝ → String
  | none => "NaN:NaN"
  | some t => formatTimeFloor t

/- ===== Utility functions (source lines 11-35) ===== -/

noncomputable def degToRad (d : ℝ) : ℝ := d * Real.pi / 180

noncomputable def radToDeg (r : ℝ) : ℝ := r * 180 / Real.pi

/-- `normalizeAngle`: wrap into `[0, 360)`. -/
noncomputable def normalizeAngle (deg : ℝ) : ℝ :=
  let a := jsFmod deg 360
  if a < 0 then a + 360 else a

/-- `normalizeToScale`: floor-based normalization `value - ⌊value/size⌋ * size`. -/
noncomputable def normalizeToScale (value size : ℝ) : ℝ :=
  value - (⌊value / size⌋ : ℝ) * size

/-- `quadrantShiftAngle`: signed shift into `[-180, 180]`. -/
noncomputable def quadrantShiftAngle (angle : ℝ) : ℝ :=
  let a := jsFmod angle 360
  let a1 := if a < -180 then a + 360 else a
  if a1 > 180 then a1 - 360 else a1

/-- `unwindAngle`: wrap into `[0, 360)` (textually identical to
`normalizeAngle` in the source, transcribed separately as there). -/
noncomputable def unwindAngle (angle : ℝ) : ℝ :=
  let a := jsFmod angle 360
  if a < 0 then a + 360 else a

/- ===== Astronomical calculations (source lines 41-213) ===== -/

noncomputable def julianDay (year month day hours : ℝ) : ℝ :=
  let Y := if month > 2 then year else year - 1
  let M := if month > 2 then month else month + 12
  let D := day + hours / 24
  let A := truncR (Y / 100)
  let B := truncR (2 - A + truncR (A / 4))
  let i0 := truncR (365.25 * (Y + 4716))
  let i1 := truncR (30.6001 * (M + 1))
  i0 + i1 + D + B - 1524.5

noncomputable def julianCentury (jd : ℝ) : ℝ := (jd - 2451545) / 36525

noncomputable def meanSolarLongitude (T : ℝ) : ℝ :=
  normalizeAngle (280.4664567 + 36000.76983 * T + 0.0003032 * T ^ 2)

noncomputable def meanLunarLongitude (T : ℝ) : ℝ :=
  normalizeAngle (218.3165 + 481267.8813 * T)

noncomputable def ascendingLunarNodeLongitude (T : ℝ) : ℝ :=
  normalizeAngle (125.04452 - 1934.136261 * T + 0.0020708 * T ^ 2 + T ^ 3 / 450000)

noncomputable def meanSolarAnomaly (T : ℝ) : ℝ :=
  normalizeAngle (357.52911 + 35999.05029 * T - 0.0001537 * T ^ 2)

noncomputable def solarEquationOfTheCenter (T meanAnomaly : ℝ) : ℝ :=
  let Mrad := degToRad meanAnomaly
  (1.914602 - 0.004817 * T - 0.000014 * T ^ 2) * Real.sin Mrad +
    (0.019993 - 0.000101 * T) * Real.sin (2 * Mrad) +
    0.000289 * Real.sin (3 * Mrad)

noncomputable def apparentSolarLongitude (T meanLongitude : ℝ) : ℝ :=
  let longitude := meanLongitude + solarEquationOfTheCenter T (meanSolarAnomaly T)
  let Omega := 125.04 - 1934.136 * T
  normalizeAngle (longitude - 0.00569 - 0.00478 * Real.sin (degToRad Omega))

noncomputable def meanObliquityOfTheEcliptic (T : ℝ) : ℝ :=
  23.439291 - 0.013004167 * T - 0.0000001639 * T ^ 2 + 0.0000005036 * T ^ 3

noncomputable def apparentObliquityOfTheEcliptic (T meanObliq : ℝ) : ℝ :=
  let O := 125.04 - 1934.136 * T
  meanObliq + 0.00256 * Real.cos (degToRad O)

noncomputable def meanSiderealTime (T : ℝ) : ℝ :=
  let JD := T * 36525 + 2451545
  normalizeAngle
    (280.46061837 + 360.98564736629 * (JD - 2451545) + 0.000387933 * T ^ 2 -
      T ^ 3 / 38710000)

noncomputable def nutationInLongitude (solarLongitude lunarLongitude ascendingNode : ℝ) : ℝ :=
  (-17.2 / 3600) * Real.sin (degToRad ascendingNode) -
      (1.32 / 3600) * Real.sin (2 * degToRad solarLongitude) -
    (0.23 / 3600) * Real.sin (2 * degToRad lunarLongitude) +
    (0.21 / 3600) * Real.sin (2 * degToRad ascendingNode)

noncomputable def nutationInObliquity (solarLongitude lunarLongitude ascendingNode : ℝ) : ℝ :=
  (9.2 / 3600) * Real.cos (degToRad ascendingNode) +
      (0.57 / 3600) * Real.cos (2 * degToRad solarLongitude) +
    (0.1 / 3600) * Real.cos (2 * degToRad lunarLongitude) -
    (0.09 / 3600) * Real.cos (2 * degToRad ascendingNode)

noncomputable def altitudeOfCelestialBody (observerLatitude declination localHourAngle : ℝ) : ℝ :=
  radToDeg (Real.arcsin
    (Real.sin (degToRad observerLatitude) * Real.sin (degToRad declination) +
      Real.cos (degToRad observerLatitude) * Real.cos (degToRad declination) *
        Real.cos (degToRad localHourAngle)))

noncomputable def approximateTransit (longitude siderealTime rightAscension : ℝ) : ℝ :=
  let Lw := longitude * -1
  normalizeToScale ((rightAscension + Lw - siderealTime) / 360) 1

noncomputable def interpolateAngles (y2 y1 y3 n : ℝ) : ℝ :=
  let a := unwindAngle (y2 - y1)
  let b := unwindAngle (y3 - y2)
  let c := b - a
  y2 + (n / 2) * (a + b + n * c)

noncomputable def interpolate (y2 y1 y3 n : ℝ) : ℝ :=
  let a := y2 - y1
  let b := y3 - y2
  let c := b - a
  y2 + (n / 2) * (a + b + n * c)

noncomputable def correctedTransit (approxTransit longitude siderealTime rightAscension
    previousRightAscension nextRightAscension : ℝ) : ℝ :=
  let m0 := approxTransit
  let Lw := longitude * -1
  let Theta := unwindAngle (siderealTime + 360.985647 * m0)
  let a := unwindAngle (interpolateAngles rightAscension previousRightAscension
    nextRightAscension m0)
  let H := quadrantShiftAngle (Theta - Lw - a)
  let dm := H / -360
  (m0 + dm) * 24

/-- JS `Math.atan2 (y, x)`: the argument of the complex number `x + y*i`,
in `(-π, π]` (and `0` at the origin, as in JavaScript). -/
noncomputable def atan2 (y x : ℝ) : ℝ := Complex.arg ⟨x, y⟩

structure Coordinates where
  latitude : ℝ
  longitude : ℝ

/-- Parameter object of `correctedHourAngle` (source lines 181-197). -/
structure HourAngleParams where
  approximateTransit : ℝ
  angle : ℝ
  coordinates : Coordinates
  afterTransit : Bool
  siderealTime : ℝ
  rightAscension : ℝ
  previousRightAscension : ℝ
  nextRightAscension : ℝ
  declination : ℝ
  previousDeclination : ℝ
  nextDeclination : ℝ

/-- `term1` of `correctedHourAngle`: the numerator of the arc-cosine argument. -/
noncomputable def hourAngleTerm1 (p : HourAngleParams) : ℝ :=
  Real.sin (degToRad p.angle) -
    Real.sin (degToRad p.coordinates.latitude) * Real.sin (degToRad p.declination)

/-- `term2` of `correctedHourAngle`: the denominator of the arc-cosine argument. -/
noncomputable def hourAngleTerm2 (p : HourAngleParams) : ℝ :=
  Real.cos (degToRad p.coordinates.latitude) * Real.cos (degToRad p.declination)

/-- `correctedHourAngle` (source lines 186-213).  `Math.acos(term1 / term2)`
is NaN whenever the quotient lies outside `[-1, 1]` — including the infinite
or NaN quotient produced by `term2 = 0` — and that NaN propagates through all
later arithmetic to the returned value; this is the `none` branch. -/
noncomputable def correctedHourAngle (p : HourAngleParams) : Option ℝ :=
  if hourAngleTerm2 p = 0 ∨ 1 < |hourAngleTerm1 p / hourAngleTerm2 p| then none
  else
    let m0 := p.approximateTransit
    let h0 := p.angle
    let Lw := p.coordinates.longitude * -1
    let H0 := radToDeg (Real.arccos (hourAngleTerm1 p / hourAngleTerm2 p))
    let m := if p.afterTransit then m0 + H0 / 360 else m0 - H0 / 360
    let Theta := unwindAngle (p.siderealTime + 360.985647 * m)
    let a := unwindAngle (interpolateAngles p.rightAscension p.previousRightAscension
      p.nextRightAscension m)
    let delta := interpolate p.declination p.previousDeclination p.nextDeclination m
    let H := Theta - Lw - a
    let h := altitudeOfCelestialBody p.coordinates.latitude delta H
    let term3 := h - h0
    let term4 := 360 * Real.cos (degToRad delta) * Real.cos (degToRad p.coordinates.latitude) *
      Real.sin (degToRad H)
    let dm := term3 / term4
    some ((m + dm) * 24)

/- ===== Date model (models the ECMAScript Date UTC getters) ===== -/

/-- A JS `Date` is a time value: milliseconds since the Unix epoch.  The UTC
day number is the floor of the time value over `86400000` (ECMA-262 `Day(t)`). -/
def dayNumber (ms : ℤ) : ℤ := Int.fdiv ms 86400000

/-- Proleptic-Gregorian civil date `(year, month 1-12, day 1-31)` of a day
number counted from 1970-01-01 (the standard era-based civil-from-days
algorithm; models ECMA-262 `YearFromTime`/`MonthFromTime`/`DateFromTime`). -/
def civilFromDays (z0 : ℤ) : ℤ × ℤ × ℤ :=
  let z := z0 + 719468
  let era := Int.fdiv z 146097
  let doe := z - era * 146097
  let yoe := (doe - doe / 1460 + doe / 36524 - doe / 146096) / 365
  let y := yoe + era * 400
  let doy := doe - (365 * yoe + yoe / 4 - yoe / 100)
  let mp := (5 * doy + 2) / 153
  let d := doy - (153 * mp + 2) / 5 + 1
  let m := if mp < 10 then mp + 3 else mp - 9
  (if m ≤ 2 then y + 1 else y, m, d)

/-- JS `Date.prototype.getUTCFullYear`. -/
def getUTCFullYear (ms : ℤ) : ℤ := (civilFromDays (dayNumber ms)).1

/-- JS `Date.prototype.getUTCMonth` (0-based as in JavaScript). -/
def getUTCMonth (ms : ℤ) : ℤ := (civilFromDays (dayNumber ms)).2.1 - 1

/-- JS `Date.prototype.getUTCDate` (day of month, 1-based). -/
def getUTCDate (ms : ℤ) : ℤ := (civilFromDays (dayNumber ms)).2.2

/- ===== Options and results (source lines 240-399) ===== -/

/-- Recognized values of `options.format`. -/
inductive Format where
  | floor : Format
  | round : Format
  | mixed : Format
deriving DecidableEq

/-- The `options` object: absent fields are `none` and fall back to the
source defaults (`?? 17.98`, `?? 0.833`, `?? 3.79`, `?? 14`, `|| 'mixed'`). -/
structure Options where
  fajrAngle : Option ℝ := none
  sunriseAltitude : Option ℝ := none
  maghribAngle : Option ℝ := none
  ishaAngle : Option ℝ := none
  format : Option Format := none

/-- Solar coordinates for one Julian day (source `getSolarCoords`). -/
structure SolarCoords where
  declination : ℝ
  rightAscension : ℝ
  apparentSiderealTime : ℝ

/-- Source lines 257-276: the `getSolarCoords` closure, lifted to the top
level (it reads nothing from the enclosing scope but `jDay`). -/
noncomputable def getSolarCoords (jDay : ℝ) : SolarCoords :=
  let T := julianCentury jDay
  let L0 := meanSolarLongitude T
  let Lp := meanLunarLongitude T
  let Omega := ascendingLunarNodeLongitude T
  let Lambda := apparentSolarLongitude T L0
  let Theta0 := meanSiderealTime T
  let dPsi := nutationInLongitude L0 Lp Omega
  let dEpsilon := nutationInObliquity L0 Lp Omega
  let Epsilon0 := meanObliquityOfTheEcliptic T
  let EpsilonApparent := apparentObliquityOfTheEcliptic T Epsilon0
  let LambdaRad := degToRad Lambda
  let EpsAppRad := degToRad EpsilonApparent
  { declination := radToDeg (Real.arcsin (Real.sin EpsAppRad * Real.sin LambdaRad)),
    rightAscension := unwindAngle (radToDeg (atan2 (Real.cos EpsAppRad * Real.sin LambdaRad)
      (Real.cos LambdaRad))),
    apparentSiderealTime := Theta0 + (dPsi * 3600 * Real.cos (degToRad (Epsilon0 + dEpsilon))) / 3600 }

/-- The local decimal-hour event values of `calculatePrayerTimes` (source
steps 1-6, lines 249-364), before formatting.  `none` is a JS NaN. -/
structure PrayerLocals where
  fajr : Option ℝ
  sunrise : Option ℝ
  dhuhr : Option ℝ
  asr : Option ℝ
  sunset : Option ℝ
  maghrib : Option ℝ
  isha : Option ℝ
  midnight : Option ℝ

/-- The formatted output record of `calculatePrayerTimes`. -/
structure PrayerTimesResult where
  fajr : String
  sunrise : String
  dhuhr : String
  asr : String
  sunset : String
  maghrib : String
  isha : String
  midnight : String
deriving DecidableEq

/-- Steps 1-6 of `calculatePrayerTimes` (source lines 249-364): everything up
to and including the conversion to local time, yielding the decimal-hour
values that step 7 formats. -/
noncomputable def localPrayerTimes (dateMs : ℤ) (latitude longitude timezoneOffset : ℝ)
    (options : Options) : PrayerLocals :=
  let utcYear := getUTCFullYear dateMs
  let utcMonth := getUTCMonth dateMs + 1
  let utcDay := getUTCDate dateMs
  let jd := julianDay (utcYear : ℝ) (utcMonth : ℝ) (utcDay : ℝ) 0
  let solar := getSolarCoords jd
  let prevSolar := getSolarCoords (jd - 1)
  let nextSolar := getSolarCoords (jd + 1)
  let coords : Coordinates := { latitude := latitude, longitude := longitude }
  let m0 := approximateTransit longitude solar.apparentSiderealTime solar.rightAscension
  let FAJR_ANGLE := options.fajrAngle.getD 17.98
  let SUNRISE_ALTITUDE := options.sunriseAltitude.getD 0.833
  let MAGHRIB_ANGLE := options.maghribAngle.getD 3.79
  let ISHA_ANGLE := options.ishaAngle.getD 14
  let solarNoon := correctedTransit m0 longitude solar.apparentSiderealTime
    solar.rightAscension prevSolar.rightAscension nextSolar.rightAscension
  let commonParams : HourAngleParams :=
    { approximateTransit := m0, angle := 0, coordinates := coords, afterTransit := false,
      siderealTime := solar.apparentSiderealTime, rightAscension := solar.rightAscension,
      previousRightAscension := prevSolar.rightAscension,
      nextRightAscension := nextSolar.rightAscension, declination := solar.declination,
      previousDeclination := prevSolar.declination, nextDeclination := nextSolar.declination }
  let sunriseTime := correctedHourAngle
    { commonParams with angle := -SUNRISE_ALTITUDE, afterTransit := false }
  let sunsetTime := correctedHourAngle
    { commonParams with angle := -SUNRISE_ALTITUDE, afterTransit := true }
  let fajrTime := correctedHourAngle
    { commonParams with angle := -FAJR_ANGLE, afterTransit := false }
  let maghribTime := correctedHourAngle
    { commonParams with angle := -MAGHRIB_ANGLE, afterTransit := true }
  let ishaTime := correctedHourAngle
    { commonParams with angle := -ISHA_ANGLE, afterTransit := true }
  let asrTime :=
    let tangent := |coords.latitude - solar.declination|
    let inverse := 1 + Real.tan (degToRad tangent)
    let angle := radToDeg (Real.arctan (1 / inverse))
    correctedHourAngle { commonParams with angle := angle, afterTransit := true }
  let solarNoonLocal := solarNoon + timezoneOffset
  let sunriseLocal := Option.map (· + timezoneOffset) sunriseTime
  let sunsetLocal := Option.map (· + timezoneOffset) sunsetTime
  let fajrLocal := Option.map (· + timezoneOffset) fajrTime
  let maghribLocal := Option.map (· + timezoneOffset) maghribTime
  let ishaLocal := Option.map (· + timezoneOffset) ishaTime
  let asrLocal := Option.map (· + timezoneOffset) asrTime
  let midnightTime := Option.map₂ (fun s f => s + (f + 24 - s) / 2) sunsetLocal fajrLocal
  { fajr := fajrLocal, sunrise := sunriseLocal, dhuhr := some solarNoonLocal,
    asr := asrLocal, sunset := sunsetLocal, maghrib := maghribLocal, isha := ishaLocal,
    midnight := midnightTime }

/-- Step 7 of `calculatePrayerTimes` (source lines 366-398): formatting under
the configured output policy, `'mixed'` by default. -/
noncomputable def calculatePrayerTimes (dateMs : ℤ) (latitude longitude timezoneOffset : ℝ)
    (options : Options) : PrayerTimesResult :=
  let L := localPrayerTimes dateMs latitude longitude timezoneOffset options
  let fmt := options.format.getD Format.mixed
  if fmt = Format.mixed then
    { fajr := jsFormatRound L.fajr, sunrise := jsFormatFloor L.sunrise,
      dhuhr := jsFormatRound L.dhuhr, asr := jsFormatRound L.asr,
      sunset := jsFormatFloor L.sunset, maghrib := jsFormatFloor L.maghrib,
      isha := jsFormatRound L.isha, midnight := jsFormatRound L.midnight }
  else
    let formatter := fun t => if fmt = Format.floor then jsFormatFloor t else jsFormatRound t
    { fajr := formatter L.fajr, sunrise := formatter L.sunrise, dhuhr := formatter L.dhuhr,
      asr := formatter L.asr, sunset := formatter L.sunset, maghrib := formatter L.maghrib,
      isha := formatter L.isha, midnight := formatter L.midnight }

/- ===== Definitions that follow the spec's words (for comparison) ===== -/

/-- Follows the spec's words: `m0 = frac((rightAscension −
longitude_westpositive − apparentSiderealTime) / 360)` with
`longitude_westpositive = −longitude`, to be compared with
`approximateTransit` (which ADDS the west-positive longitude). -/
noncomputable def approximateTransitSpec (longitude siderealTime rightAscension : ℝ) : ℝ :=
  let Lw := longitude * -1
  normalizeToScale ((rightAscension - Lw - siderealTime) / 360) 1

/-- Follows the spec's words: the right-ascension interpolation variant with
first differences taken via the signed "shift into [-180, 180]" operation, to
be compared with `interpolateAngles` (which uses `unwindAngle`, i.e.
normalization into `[0, 360)`). -/
noncomputable def interpolateAnglesSpec (y2 y1 y3 n : ℝ) : ℝ :=
  let a := quadrantShiftAngle (y2 - y1)
  let b := quadrantShiftAngle (y3 - y2)
  let c := b - a
  y2 + (n / 2) * (a + b + n * c)

/-- Pointwise hour-shift of every event of a `PrayerLocals` record. -/
def shiftLocals (k : ℝ) (L : PrayerLocals) : PrayerLocals :=
  { fajr := Option.map (· + k) L.fajr, sunrise := Option.map (· + k) L.sunrise,
    dhuhr := Option.map (· + k) L.dhuhr, asr := Option.map (· + k) L.asr,
    sunset := Option.map (· + k) L.sunset, maghrib := Option.map (· + k) L.maghrib,
    isha := Option.map (· + k) L.isha, midnight := Option.map (· + k) L.midnight }

/-- A concrete out-of-domain parameter record: at latitude 0 with declination
60° a target altitude of 90° is unreachable (the arc-cosine argument is 2). -/
noncomputable def outOfDomainParams : HourAngleParams :=
  { approximateTransit := 0, angle := 90, coordinates := { latitude := 0, longitude := 0 },
    afterTransit := false, siderealTime := 0, rightAscension := 0,
    previousRightAscension := 0, nextRightAscension := 0, declination := 60,
    previousDeclination := 0, nextDeclination := 0 }

/- ===== Lemmas: decimal rendering is injective after padding ===== -/

theorem string_data_append (a b : String) : (a ++ b).data = a.data ++ b.data := rfl

theorem string_eq_of_data_eq {a b : String} (h : a.data = b.data) : a = b := by
  cases a
  cases b
  exact congrArg String.mk h

theorem ofDigitsLE_natDigitsAux : ∀ fuel n : ℕ, n ≤ fuel →
    ofDigitsLE (natDigitsAux fuel n) = n := by
  intro fuel
  induction fuel with
  | zero =>
    intro n hn
    interval_cases n
    rfl
  | succ f ih =>
    intro n hn
    match n with
    | 0 => rfl
    | m + 1 =>
      have hdiv : (m + 1) / 10 ≤ f := by
        have := Nat.div_lt_self (Nat.succ_pos m) (by norm_num : 1 < 10)
        omega
      simp only [natDigitsAux, ofDigitsLE, ih _ hdiv]
      omega

theorem natDigitsAux_lt_ten : ∀ fuel n : ℕ, ∀ d ∈ natDigitsAux fuel n, d < 10 := by
  intro fuel
  induction fuel with
  | zero =>
    intro n d hd
    simp [natDigitsAux] at hd
  | succ f ih =>
    intro n d hd
    match n with
    | 0 => simp [natDigitsAux] at hd
    | m + 1 =>
      simp only [natDigitsAux, List.mem_cons] at hd
      rcases hd with h | h
      · omega
      · exact ih _ _ h

theorem digitVal_digitChar {d : ℕ} (hd : d < 10) : digitVal (digitChar d) = d := by
  interval_cases d <;> rfl

theorem digitChar_ne_dash (d : ℕ) : digitChar d ≠ '-' := by
  unfold digitChar
  split <;> decide

theorem parseBE_rev_aux : ∀ (l : List ℕ) (acc : ℕ), (∀ d ∈ l, d < 10) →
    List.foldl (fun acc c => 10 * acc + digitVal c) acc (l.reverse.map digitChar) =
      acc * 10 ^ l.length + ofDigitsLE l := by
  intro l
  induction l with
  | nil =>
    intro acc _
    simp [ofDigitsLE]
  | cons d ds ih =>
    intro acc hlt
    have hds : ∀ x ∈ ds, x < 10 := fun x hx => hlt x (List.mem_cons_of_mem _ hx)
    have hd : d < 10 := hlt d (List.mem_cons_self d ds)
    simp only [List.reverse_cons, List.map_append, List.foldl_append, ih acc hds,
      List.map_cons, List.map_nil, List.foldl_cons, List.foldl_nil,
      digitVal_digitChar hd, ofDigitsLE, List.length_cons]
    ring

theorem ofDigitsLE_natDigits (n : ℕ) : ofDigitsLE (natDigits n) = n :=
  ofDigitsLE_natDigitsAux n n le_rfl

theorem parseBE_natDigits (n : ℕ) : parseBE ((natDigits n).reverse.map digitChar) = n := by
  have h := parseBE_rev_aux (natDigits n) 0 (natDigitsAux_lt_ten n n)
  rw [parseBE, h, ofDigitsLE_natDigits]
  ring

theorem parseBE_zero_cons (cs : List Char) : parseBE ('0' :: cs) = parseBE cs := rfl

theorem natRepr_data {n : ℕ} (hn : 0 < n) :
    (natRepr n).data = (natDigits n).reverse.map digitChar := by
  unfold natRepr
  rw [if_neg (by omega)]

theorem parseBE_natRepr (n : ℕ) : parseBE (natRepr n).data = n := by
  rcases Nat.eq_zero_or_pos n with h | h
  · subst h
    rfl
  · rw [natRepr_data h, parseBE_natDigits]

theorem natRepr_mem_ne_dash {n : ℕ} {c : Char} (hc : c ∈ (natRepr n).data) : c ≠ '-' := by
  rcases Nat.eq_zero_or_pos n with h | h
  · subst h
    simp only [natRepr, if_pos rfl] at hc
    have : c = '0' := by simpa using hc
    subst this
    decide
  · rw [natRepr_data h] at hc
    rcases List.mem_map.mp hc with ⟨d, _, hd⟩
    subst hd
    exact digitChar_ne_dash d

theorem natDigits_ne_nil {n : ℕ} (hn : 0 < n) : natDigits n ≠ [] := by
  match n, hn with
  | m + 1, _ =>
    show natDigitsAux (m + 1) (m + 1) ≠ []
    simp [natDigitsAux]

theorem natRepr_length_pos (n : ℕ) : 0 < (natRepr n).length := by
  rcases Nat.eq_zero_or_pos n with h | h
  · subst h
    decide
  · show 0 < (natRepr n).data.length
    rw [natRepr_data h]
    simpa using List.length_pos.mpr (natDigits_ne_nil h)

theorem parseIntList_nonneg {cs : List Char} (hne : cs ≠ [])
    (hc : ∀ c ∈ cs, c ≠ '-') : parseIntList cs = (parseBE cs : ℤ) := by
  match cs, hne with
  | c :: cs, _ =>
    simp only [parseIntList, if_neg (hc c (List.mem_cons_self c cs))]

theorem parseIntList_dash_cons (cs : List Char) :
    parseIntList ('-' :: cs) = -(parseBE cs : ℤ) := by
  simp [parseIntList]

theorem parse_pad (i : ℤ) : parseIntStr (padStart2 (intRepr i)) = i := by
  rcases lt_or_le i 0 with hneg | hpos
  · -- negative: "-" followed by at least one digit, so no padding occurs
    have hrepr : intRepr i = "-" ++ natRepr i.natAbs := by
      unfold intRepr
      rw [if_pos hneg]
    have hlen : ¬ (intRepr i).length < 2 := by
      have h1 : (intRepr i).length = 1 + (natRepr i.natAbs).length := by
        rw [hrepr]
        show (("-" ++ natRepr i.natAbs).data).length = 1 + ((natRepr i.natAbs).data).length
        rw [string_data_append, List.length_append]
        norm_num [show "-".data = ['-'] from rfl]
      have := natRepr_length_pos i.natAbs
      omega
    rw [padStart2, if_neg hlen, hrepr]
    show parseIntList (("-" ++ natRepr i.natAbs).data) = i
    rw [string_data_append]
    show parseIntList ('-' :: (natRepr i.natAbs).data) = i
    rw [parseIntList_dash_cons, parseBE_natRepr]
    omega
  · -- nonnegative: digits only, possibly padded with one zero
    have hrepr : intRepr i = natRepr i.toNat := by
      unfold intRepr
      rw [if_neg (by omega)]
    rw [hrepr, padStart2]
    have hne : ∀ c ∈ (natRepr i.toNat).data, c ≠ '-' := fun c hc => natRepr_mem_ne_dash hc
    by_cases hlen : (natRepr i.toNat).length < 2
    · have hl1 : (natRepr i.toNat).length = 1 := by
        have := natRepr_length_pos i.toNat
        omega
      have hrep : List.replicate (2 - (natRepr i.toNat).length) '0' = ['0'] := by
        rw [hl1]
        decide
      rw [if_pos hlen, hrep]
      show parseIntList ((String.mk ['0'] ++ natRepr i.toNat).data) = i
      rw [string_data_append]
      show parseIntList ('0' :: (natRepr i.toNat).data) = i
      have hc0 : ∀ c ∈ '0' :: (natRepr i.toNat).data, c ≠ '-' := by
        intro c hc
        rcases List.mem_cons.mp hc with h | h
        · subst h
          decide
        · exact hne c h
      rw [parseIntList_nonneg (by simp) hc0, parseBE_zero_cons, parseBE_natRepr]
      omega
    · rw [if_neg hlen]
      show parseIntList (natRepr i.toNat).data = i
      have hnonempty : (natRepr i.toNat).data ≠ [] := by
        have := natRepr_length_pos i.toNat
        intro hcontra
        simp [String.length, hcontra] at this
      rw [parseIntList_nonneg hnonempty hne, parseBE_natRepr]
      omega

theorem padStart2_intRepr_injective {a b : ℤ}
    (h : padStart2 (intRepr a) = padStart2 (intRepr b)) : a = b := by
  have ha := parse_pad a
  rw [h, parse_pad] at ha
  omega

theorem hour_field_string_ne {h1 h2 : ℤ} (m : String) (hne : h1 ≠ h2) :
    padStart2 (intRepr h1) ++ ":" ++ m ≠ padStart2 (intRepr h2) ++ ":" ++ m := by
  intro heq
  apply hne
  apply padStart2_intRepr_injective
  apply string_eq_of_data_eq
  have hd := congrArg String.data heq
  rw [string_data_append, string_data_append, string_data_append, string_data_append,
    List.append_assoc, List.append_assoc] at hd
  exact List.append_cancel_right hd

/-- The hour field of `formatTimeFloor` is the raw floor of the input, so
adding 24 hours always changes the output string. -/
theorem formatTimeFloor_add24_ne (t : ℝ) : formatTimeFloor (t + 24) ≠ formatTimeFloor t := by
  simp only [formatTimeFloor]
  have hfl : ⌊t + 24⌋ = ⌊t⌋ + 24 := by
    rw [show (24 : ℝ) = ((24 : ℤ) : ℝ) by norm_num, Int.floor_add_int]
  rw [hfl]
  have hmin : t + 24 - ((⌊t⌋ + 24 : ℤ) : ℝ) = t - ((⌊t⌋ : ℤ) : ℝ) := by
    push_cast
    ring
  rw [hmin]
  exact hour_field_string_ne _ (by omega)

/- ===== Evaluation helpers for the JS numeric primitives ===== -/

theorem truncR_of_nonneg {x : ℝ} (h : 0 ≤ x) : truncR x = ((⌊x⌋ : ℤ) : ℝ) := by
  rw [truncR, if_pos h]

theorem truncR_of_nonneg_small {x : ℝ} (h1 : 0 ≤ x) (h2 : x < 1) : truncR x = 0 := by
  rw [truncR, if_pos h1]
  have h : ⌊x⌋ = 0 := by
    rw [Int.floor_eq_iff]
    constructor
    · exact_mod_cast h1
    · push_cast
      linarith
  rw [h]
  norm_num

theorem truncR_of_neg_small {x : ℝ} (h1 : -1 < x) (h2 : x < 0) : truncR x = 0 := by
  rw [truncR, if_neg (by linarith)]
  have h : ⌊-x⌋ = 0 := by
    rw [Int.floor_eq_iff]
    constructor
    · push_cast
      linarith
    · push_cast
      linarith
  rw [h]
  norm_num

theorem unwindAngle_of_neg {x : ℝ} (h1 : -360 < x) (h2 : x < 0) : unwindAngle x = x + 360 := by
  have ht : truncR (x / 360) = 0 :=
    truncR_of_neg_small (by rw [lt_div_iff₀ (by norm_num : (0 : ℝ) < 360)]; linarith)
      (div_neg_of_neg_of_pos h2 (by norm_num))
  simp only [unwindAngle, jsFmod, ht, mul_zero, sub_zero]
  rw [if_pos h2]

theorem unwindAngle_of_nonneg {x : ℝ} (h1 : 0 ≤ x) (h2 : x < 360) : unwindAngle x = x := by
  have ht : truncR (x / 360) = 0 :=
    truncR_of_nonneg_small (div_nonneg h1 (by norm_num))
      (by rw [div_lt_one (by norm_num : (0 : ℝ) < 360)]; linarith)
  simp only [unwindAngle, jsFmod, ht, mul_zero, sub_zero]
  rw [if_neg (by linarith)]

theorem quadrantShiftAngle_of_small {x : ℝ} (h1 : -180 ≤ x) (h2 : x ≤ 180) :
    quadrantShiftAngle x = x := by
  have ht : truncR (x / 360) = 0 := by
    rcases le_or_lt 0 x with h | h
    · exact truncR_of_nonneg_small (div_nonneg h (by norm_num))
        (by rw [div_lt_one (by norm_num : (0 : ℝ) < 360)]; linarith)
    · exact truncR_of_neg_small (by rw [lt_div_iff₀ (by norm_num : (0 : ℝ) < 360)]; linarith)
        (div_neg_of_neg_of_pos h (by norm_num))
  simp only [quadrantShiftAngle, jsFmod, ht, mul_zero, sub_zero]
  have hinner : (if x < -180 then x + 360 else x) = x := if_neg (by linarith)
  rw [hinner, if_neg (by linarith)]

/- ===== Claim C2: approximate transit ===== -/

/-- C2 (amended): `approximateTransit` equals the floor-based fractional part
of `(rightAscension + longitude_westpositive − apparentSiderealTime) / 360`
(the west-positive longitude is ADDED, not subtracted as the claim states),
and the result always lies in `[0, 1)`, also for negative dividends. -/
theorem approximateTransit_fract_range (longitude siderealTime rightAscension : ℝ) :
    approximateTransit longitude siderealTime rightAscension =
      Int.fract ((rightAscension + longitude * -1 - siderealTime) / 360) ∧
    0 ≤ approximateTransit longitude siderealTime rightAscension ∧
    approximateTransit longitude siderealTime rightAscension < 1 := by
  have h : ∀ v : ℝ, normalizeToScale v 1 = Int.fract v := by
    intro v
    rw [normalizeToScale, Int.fract]
    norm_num
  refine ⟨?_, ?_, ?_⟩ <;> simp only [approximateTransit, h]
  · exact Int.fract_nonneg _
  · exact Int.fract_lt_one _

/-- C2 (counterexample): at `longitude = 90`, `siderealTime = 0`,
`rightAscension = 0` the code returns `frac(-90/360) = 3/4`, while the
spec's formula `frac((rightAscension − longitude_westpositive −
apparentSiderealTime)/360)` gives `frac(90/360) = 1/4`. -/
theorem approximateTransit_spec_sign_counterexample :
    approximateTransit 90 0 0 ≠ approximateTransitSpec 90 0 0 := by
  have hcode : approximateTransit 90 0 0 = 3 / 4 := by
    simp only [approximateTransit, normalizeToScale]
    have hv : ((0 : ℝ) + 90 * -1 - 0) / 360 = -(1 / 4) := by norm_num
    rw [hv]
    have hf : ⌊(-(1 / 4) : ℝ) / 1⌋ = -1 := by
      rw [Int.floor_eq_iff]
      constructor
      · push_cast
        norm_num
      · push_cast
        norm_num
    rw [hf]
    norm_num
  have hspec : approximateTransitSpec 90 0 0 = 1 / 4 := by
    simp only [approximateTransitSpec, normalizeToScale]
    have hv : ((0 : ℝ) - 90 * -1 - 0) / 360 = 1 / 4 := by norm_num
    rw [hv]
    have hf : ⌊((1 / 4) : ℝ) / 1⌋ = 0 := by
      rw [Int.floor_eq_iff]
      constructor
      · push_cast
        norm_num
      · push_cast
        norm_num
    rw [hf]
    norm_num
  rw [hcode, hspec]
  norm_num

/- ===== Claim C3: the two interpolation variants ===== -/

/-- C3 (amended): the plain variant `interpolate` is the quadratic through
`(-1, y1)`, `(0, y2)`, `(1, y3)` (plain linear differences, no wrapping),
and the right-ascension variant `interpolateAngles` is the same quadratic
with first differences taken through `unwindAngle` — normalization into
`[0, 360)` — not through the signed shift into `[-180, 180]`. -/
theorem interpolation_variants (y1 y2 y3 n : ℝ) :
    interpolate y2 y1 y3 (-1) = y1 ∧ interpolate y2 y1 y3 0 = y2 ∧
    interpolate y2 y1 y3 1 = y3 ∧
    interpolateAngles y2 y1 y3 n =
      interpolate y2 (y2 - unwindAngle (y2 - y1)) (y2 + unwindAngle (y3 - y2)) n := by
  refine ⟨?_, ?_, ?_, ?_⟩ <;> simp only [interpolate, interpolateAngles] <;> ring

/-- C3 (counterexample): at `y2 = 0, y1 = 10, y3 = 0, n = 1/2` the code's
`unwindAngle`-based variant gives `43.75`, while the spec's signed-shift
variant gives `-1.25`. -/
theorem interpolateAngles_shift_counterexample :
    interpolateAngles 0 10 0 (1 / 2) ≠ interpolateAnglesSpec 0 10 0 (1 / 2) := by
  have hu1 : unwindAngle ((0 : ℝ) - 10) = 350 := by
    rw [unwindAngle_of_neg (by norm_num) (by norm_num)]
    norm_num
  have hu2 : unwindAngle ((0 : ℝ) - 0) = 0 := by
    rw [unwindAngle_of_nonneg (by norm_num) (by norm_num)]
    norm_num
  have hq1 : quadrantShiftAngle ((0 : ℝ) - 10) = 0 - 10 :=
    quadrantShiftAngle_of_small (by norm_num) (by norm_num)
  have hq2 : quadrantShiftAngle ((0 : ℝ) - 0) = 0 - 0 :=
    quadrantShiftAngle_of_small (by norm_num) (by norm_num)
  simp only [interpolateAngles, interpolateAnglesSpec, hu1, hu2, hq1, hq2]
  norm_num

/- ===== Claim C4: output formatting policy ===== -/

theorem localPrayerTimes_format_irrel (ms : ℤ) (lat lon tz : ℝ) (o : Options)
    (f : Option Format) :
    localPrayerTimes ms lat lon tz { o with format := f } =
      localPrayerTimes ms lat lon tz o := rfl

/-- C4: under `"mixed"` (the default) sunrise, sunset and maghrib are floored
to the minute and fajr, dhuhr, asr, isha, midnight are rounded to the nearest
minute; under `"floor"` every event is floor-formatted and under `"round"`
every event is round-formatted. -/
theorem output_format_policy (ms : ℤ) (lat lon tz : ℝ) (o : Options) :
    (calculatePrayerTimes ms lat lon tz { o with format := some Format.mixed } =
      { fajr := jsFormatRound (localPrayerTimes ms lat lon tz o).fajr,
        sunrise := jsFormatFloor (localPrayerTimes ms lat lon tz o).sunrise,
        dhuhr := jsFormatRound (localPrayerTimes ms lat lon tz o).dhuhr,
        asr := jsFormatRound (localPrayerTimes ms lat lon tz o).asr,
        sunset := jsFormatFloor (localPrayerTimes ms lat lon tz o).sunset,
        maghrib := jsFormatFloor (localPrayerTimes ms lat lon tz o).maghrib,
        isha := jsFormatRound (localPrayerTimes ms lat lon tz o).isha,
        midnight := jsFormatRound (localPrayerTimes ms lat lon tz o).midnight }) ∧
    (calculatePrayerTimes ms lat lon tz { o with format := some Format.floor } =
      { fajr := jsFormatFloor (localPrayerTimes ms lat lon tz o).fajr,
        sunrise := jsFormatFloor (localPrayerTimes ms lat lon tz o).sunrise,
        dhuhr := jsFormatFloor (localPrayerTimes ms lat lon tz o).dhuhr,
        asr := jsFormatFloor (localPrayerTimes ms lat lon tz o).asr,
        sunset := jsFormatFloor (localPrayerTimes ms lat lon tz o).sunset,
        maghrib := jsFormatFloor (localPrayerTimes ms lat lon tz o).maghrib,
        isha := jsFormatFloor (localPrayerTimes ms lat lon tz o).isha,
        midnight := jsFormatFloor (localPrayerTimes ms lat lon tz o).midnight }) ∧
    (calculatePrayerTimes ms lat lon tz { o with format := some Format.round } =
      { fajr := jsFormatRound (localPrayerTimes ms lat lon tz o).fajr,
        sunrise := jsFormatRound (localPrayerTimes ms lat lon tz o).sunrise,
        dhuhr := jsFormatRound (localPrayerTimes ms lat lon tz o).dhuhr,
        asr := jsFormatRound (localPrayerTimes ms lat lon tz o).asr,
        sunset := jsFormatRound (localPrayerTimes ms lat lon tz o).sunset,
        maghrib := jsFormatRound (localPrayerTimes ms lat lon tz o).maghrib,
        isha := jsFormatRound (localPrayerTimes ms lat lon tz o).isha,
        midnight := jsFormatRound (localPrayerTimes ms lat lon tz o).midnight }) := by
  refine ⟨?_, ?_, ?_⟩ <;>
    simp [calculatePrayerTimes, localPrayerTimes_format_irrel]

/- ===== Claim C7: midnight is the midpoint of the local night ===== -/

theorem option_map2_ext (f g : ℝ → ℝ → ℝ) (h : ∀ a b, f a b = g a b) (S F : Option ℝ) :
    Option.map₂ f S F = Option.map₂ g S F := by
  cases S <;> cases F <;> simp [Option.map₂, h]

/-- C7: the midnight event is computed from the already timezone-converted
sunset and fajr fields of the same record, and equals their night midpoint
`sunset + ((fajr + 24 − sunset)/2) = (sunset + fajr)/2 + 12`. -/
theorem midnight_is_local_midpoint (ms : ℤ) (lat lon tz : ℝ) (o : Options) :
    (localPrayerTimes ms lat lon tz o).midnight =
      Option.map₂ (fun s f => (s + f) / 2 + 12) (localPrayerTimes ms lat lon tz o).sunset
        (localPrayerTimes ms lat lon tz o).fajr := by
  simp only [localPrayerTimes]
  exact option_map2_ext _ _ (fun a b => by ring) _ _

/- ===== Claim C5: timezone linearity of the local values ===== -/

theorem option_shift_shift (x : Option ℝ) (tz k : ℝ) :
    Option.map (· + (tz + k)) x = Option.map (· + k) (Option.map (· + tz) x) := by
  cases x <;> simp <;> ring

theorem option_midnight_shift (S F : Option ℝ) (tz k : ℝ) :
    Option.map₂ (fun s f => s + (f + 24 - s) / 2) (Option.map (· + (tz + k)) S)
        (Option.map (· + (tz + k)) F) =
      Option.map (· + k) (Option.map₂ (fun s f => s + (f + 24 - s) / 2)
        (Option.map (· + tz) S) (Option.map (· + tz) F)) := by
  cases S <;> cases F <;> simp [Option.map₂] <;> ring

theorem localPrayerTimes_shift (ms : ℤ) (lat lon tz k : ℝ) (o : Options) :
    localPrayerTimes ms lat lon (tz + k) o =
      shiftLocals k (localPrayerTimes ms lat lon tz o) := by
  simp only [localPrayerTimes, shiftLocals]
  exact PrayerLocals.mk.injEq _ _ _ _ _ _ _ _ _ _ _ _ _ _ _ _ |>.mpr
    ⟨option_shift_shift _ _ _, option_shift_shift _ _ _, congrArg some (by ring),
      option_shift_shift _ _ _, option_shift_shift _ _ _, option_shift_shift _ _ _,
      option_shift_shift _ _ _, option_midnight_shift _ _ _ _⟩

/-- C5 (amended): the pre-format local decimal-hour values produced with
timezone `tz + k` are exactly the values produced with `tz`, each shifted by
`k` hours (no modular wrap at the value level; the formatted strings wrap
modulo 24 only for round-formatted events, not for floor-formatted ones). -/
theorem localPrayerTimes_timezone_linearity (ms : ℤ) (lat lon tz k : ℝ) (o : Options) :
    localPrayerTimes ms lat lon (tz + k) o =
      shiftLocals k (localPrayerTimes ms lat lon tz o) :=
  localPrayerTimes_shift ms lat lon tz k o

/- ===== Claim C8: concrete formatting values ===== -/

/-- C8: `formatTime 13.5 = "13:30"`, `formatTimeFloor 13.999 = "13:59"`, and
any value whose minutes round to exactly 24:00 is rendered `"00:00"`. -/
theorem format_round_floor_values :
    formatTime (27 / 2) = "13:30" ∧ formatTimeFloor 13.999 = "13:59" ∧
    ∀ t : ℝ, jsRound (t * 60) = 1440 → formatTime t = "00:00" := by
  refine ⟨?_, ?_, ?_⟩
  · have h810 : jsRound ((27 / 2 : ℝ) * 60) = 810 := by
      rw [jsRound, Int.floor_eq_iff]
      constructor <;> norm_num
    have hmod : jsFmod (((810 : ℤ) : ℝ) / 60) 24 = 27 / 2 := by
      rw [jsFmod]
      have hq : (((810 : ℤ) : ℝ) / 60) / 24 = 0.5625 := by norm_num
      rw [hq, truncR_of_nonneg_small (by norm_num) (by norm_num)]
      norm_num
    have hh : ⌊(27 / 2 : ℝ)⌋ = 13 := by
      rw [Int.floor_eq_iff]
      constructor <;> norm_num
    have hm : Int.tmod 810 60 = 30 := by decide
    simp only [formatTime, h810, hmod, hh, hm]
    decide
  · have hfh : ⌊(13.999 : ℝ)⌋ = 13 := by
      rw [Int.floor_eq_iff]
      constructor <;> norm_num
    have hfm : ⌊((13.999 : ℝ) - ((13 : ℤ) : ℝ)) * 60⌋ = 59 := by
      rw [Int.floor_eq_iff]
      constructor <;> norm_num
    simp only [formatTimeFloor, hfh, hfm]
    decide
  · intro t ht
    have hmod : jsFmod (((1440 : ℤ) : ℝ) / 60) 24 = 0 := by
      rw [jsFmod]
      have hq : (((1440 : ℤ) : ℝ) / 60) / 24 = 1 := by norm_num
      rw [hq]
      have h1 : truncR 1 = 1 := by
        rw [truncR_of_nonneg (by norm_num), Int.floor_one]
        norm_num
      rw [h1]
      norm_num
    have hm : Int.tmod 1440 60 = 0 := by decide
    simp only [formatTime, ht, hmod, Int.floor_zero, hm]
    decide

/-- C8 (witness): `23.9999` has minutes rounding to exactly 24:00 and is
rendered `"00:00"`. -/
theorem format_round_floor_values_witness :
    jsRound ((23.9999 : ℝ) * 60) = 1440 ∧ formatTime 23.9999 = "00:00" := by
  have h : jsRound ((23.9999 : ℝ) * 60) = 1440 := by
    rw [jsRound, Int.floor_eq_iff]
    constructor <;> norm_num
  exact ⟨h, format_round_floor_values.2.2 23.9999 h⟩

/- ===== Claim C9: formatTimeFloor does not wrap the hour ===== -/

/-- C9: `formatTimeFloor` never reduces the hour modulo 24 — adding 24 hours
always changes its output — `formatTimeFloor 24.5 = "24:30"`, while
`formatTime` (the `"round"` formatter) wraps: `formatTime 24.5 = "00:30"`. -/
theorem formatTimeFloor_no_mod24 :
    (∀ t : ℝ, formatTimeFloor (t + 24) ≠ formatTimeFloor t) ∧
    formatTimeFloor (49 / 2) = "24:30" ∧ formatTime (49 / 2) = "00:30" := by
  refine ⟨formatTimeFloor_add24_ne, ?_, ?_⟩
  · have hfh : ⌊(49 / 2 : ℝ)⌋ = 24 := by
      rw [Int.floor_eq_iff]
      constructor <;> norm_num
    have hfm : ⌊((49 / 2 : ℝ) - ((24 : ℤ) : ℝ)) * 60⌋ = 30 := by
      rw [Int.floor_eq_iff]
      constructor <;> norm_num
    simp only [formatTimeFloor, hfh, hfm]
    decide
  · have h1470 : jsRound ((49 / 2 : ℝ) * 60) = 1470 := by
      rw [jsRound, Int.floor_eq_iff]
      constructor <;> norm_num
    have hmod : jsFmod (((1470 : ℤ) : ℝ) / 60) 24 = 1 / 2 := by
      rw [jsFmod]
      have htr : truncR ((((1470 : ℤ) : ℝ) / 60) / 24) = 1 := by
        rw [truncR_of_nonneg (by norm_num)]
        have : ⌊(((1470 : ℤ) : ℝ) / 60) / 24⌋ = 1 := by
          rw [Int.floor_eq_iff]
          constructor <;> norm_num
        rw [this]
        norm_num
      rw [htr]
      norm_num
    have hh : ⌊(1 / 2 : ℝ)⌋ = 0 := by
      rw [Int.floor_eq_iff]
      constructor <;> norm_num
    have hm : Int.tmod 1470 60 = 30 := by decide
    simp only [formatTime, h1470, hmod, hh, hm]
    decide

/- ===== Claim C1: out-of-domain hour angle yields "NaN:NaN" strings ===== -/

/-- C1: whenever the hour-angle arc-cosine argument `term1 / term2` lies
outside `[-1, 1]` (or its denominator is zero), `correctedHourAngle`
produces the JS NaN and both formatters render the string `"NaN:NaN"` —
no distinct error outcome exists anywhere in the pipeline. -/
theorem correctedHourAngle_out_of_domain_formats_nan (p : HourAngleParams)
    (h : hourAngleTerm2 p = 0 ∨ 1 < |hourAngleTerm1 p / hourAngleTerm2 p|) :
    correctedHourAngle p = none ∧
      jsFormatRound (correctedHourAngle p) = "NaN:NaN" ∧
      jsFormatFloor (correctedHourAngle p) = "NaN:NaN" := by
  have hn : correctedHourAngle p = none := by
    rw [correctedHourAngle, if_pos h]
  exact ⟨hn, by rw [hn]; rfl, by rw [hn]; rfl⟩

/-- C1 (witness): at `outOfDomainParams` the arc-cosine argument is `2`. -/
theorem correctedHourAngle_out_of_domain_formats_nan_witness :
    1 < |hourAngleTerm1 outOfDomainParams / hourAngleTerm2 outOfDomainParams| ∧
    jsFormatRound (correctedHourAngle outOfDomainParams) = "NaN:NaN" := by
  have ht1 : hourAngleTerm1 outOfDomainParams = 1 := by
    simp only [hourAngleTerm1, outOfDomainParams]
    rw [show degToRad 90 = Real.pi / 2 by simp only [degToRad]; ring,
      show degToRad 0 = 0 by simp only [degToRad]; ring,
      Real.sin_pi_div_two, Real.sin_zero]
    ring
  have ht2 : hourAngleTerm2 outOfDomainParams = 1 / 2 := by
    simp only [hourAngleTerm2, outOfDomainParams]
    rw [show degToRad 0 = 0 by simp only [degToRad]; ring,
      show degToRad 60 = Real.pi / 3 by simp only [degToRad]; ring,
      Real.cos_zero, Real.cos_pi_div_three]
    ring
  have harg : 1 < |hourAngleTerm1 outOfDomainParams / hourAngleTerm2 outOfDomainParams| := by
    rw [ht1, ht2]
    norm_num
  exact ⟨harg,
    (correctedHourAngle_out_of_domain_formats_nan outOfDomainParams (Or.inr harg)).2.1⟩

/- ===== Claim C10: only the UTC calendar day matters ===== -/

/-- C10: `calculatePrayerTimes` reads its date argument only through the UTC
year, month and day (the Julian day is taken at hour fraction 0), so two time
values on the same UTC calendar day give identical results. -/
theorem calculatePrayerTimes_depends_only_on_utc_day (ms1 ms2 : ℤ) (lat lon tz : ℝ)
    (o : Options) (hy : getUTCFullYear ms1 = getUTCFullYear ms2)
    (hm : getUTCMonth ms1 = getUTCMonth ms2) (hd : getUTCDate ms1 = getUTCDate ms2) :
    calculatePrayerTimes ms1 lat lon tz o = calculatePrayerTimes ms2 lat lon tz o := by
  simp only [calculatePrayerTimes, localPrayerTimes, hy, hm, hd]

/-- C10 (witness): epoch instants 0 ms and 1000 ms fall on the same UTC day
and give identical results. -/
theorem calculatePrayerTimes_depends_only_on_utc_day_witness :
    getUTCFullYear 0 = getUTCFullYear 1000 ∧ getUTCMonth 0 = getUTCMonth 1000 ∧
      getUTCDate 0 = getUTCDate 1000 ∧
      calculatePrayerTimes 0 0 0 0 {} = calculatePrayerTimes 1000 0 0 0 {} := by
  refine ⟨by decide, by decide, by decide, ?_⟩
  exact calculatePrayerTimes_depends_only_on_utc_day 0 1000 0 0 0 {}
    (by decide) (by decide) (by decide)

/- ===== Claim C5 (counterexample machinery) ===== -/

theorem option_map_isSome {f : ℝ → ℝ} {X : Option ℝ} (h : ∃ u, X = some u) :
    ∃ t, Option.map f X = some t := by
  obtain ⟨u, hu⟩ := h
  exact ⟨f u, by rw [hu]; rfl⟩

/-- If the observer sits on the equator, the declination is the arcsine of a
value of square at most `0.1674`, and the target altitude has `|sin| ≤ 0.015`,
then the hour-angle arc-cosine argument is in domain and
`correctedHourAngle` returns a value. -/
theorem correctedHourAngle_isSome_of (p : HourAngleParams) (s : ℝ)
    (hlat : p.coordinates.latitude = 0)
    (hdec : p.declination = radToDeg (Real.arcsin s))
    (hs2 : s ^ 2 ≤ 0.1674)
    (hang : |Real.sin (degToRad p.angle)| ≤ 0.015) :
    ∃ u, correctedHourAngle p = some u := by
  have hid : degToRad (radToDeg (Real.arcsin s)) = Real.arcsin s := by
    rw [degToRad, radToDeg]
    field_simp
  have hdeg0 : degToRad 0 = 0 := by
    rw [degToRad]
    ring
  have hterm2 : hourAngleTerm2 p = Real.sqrt (1 - s ^ 2) := by
    rw [hourAngleTerm2, hlat, hdec, hid, hdeg0, Real.cos_zero, Real.cos_arcsin, one_mul]
  have hsqrt : (0.912 : ℝ) ≤ Real.sqrt (1 - s ^ 2) := by
    have h1 : (0.912 : ℝ) = Real.sqrt (0.912 ^ 2) := (Real.sqrt_sq (by norm_num)).symm
    rw [h1]
    apply Real.sqrt_le_sqrt
    nlinarith
  have hterm2pos : 0 < hourAngleTerm2 p := by
    rw [hterm2]
    linarith
  have hterm1 : hourAngleTerm1 p = Real.sin (degToRad p.angle) := by
    rw [hourAngleTerm1, hlat, hdeg0, Real.sin_zero, zero_mul, sub_zero]
  have habs : |hourAngleTerm1 p / hourAngleTerm2 p| ≤ 1 := by
    rw [abs_div, abs_of_pos hterm2pos, div_le_one hterm2pos, hterm1]
    calc |Real.sin (degToRad p.angle)| ≤ 0.015 := hang
      _ ≤ 0.912 := by norm_num
      _ ≤ hourAngleTerm2 p := by rw [hterm2]; exact hsqrt
  have hcond : ¬ (hourAngleTerm2 p = 0 ∨ 1 < |hourAngleTerm1 p / hourAngleTerm2 p|) := by
    push_neg
    exact ⟨ne_of_gt hterm2pos, habs⟩
  rw [correctedHourAngle, if_neg hcond]
  exact ⟨_, rfl⟩

theorem julianDay_2026_02_15 : julianDay 2026 2 15 0 = 2461086.5 := by
  have hng : ¬ ((2 : ℝ) > 2) := by norm_num
  simp only [julianDay, if_neg hng]
  have hA : truncR (((2026 : ℝ) - 1) / 100) = 20 := by
    rw [truncR_of_nonneg (by norm_num)]
    rw [show ⌊((2026 : ℝ) - 1) / 100⌋ = 20 by
      rw [Int.floor_eq_iff]
      constructor <;> norm_num]
    norm_num
  rw [hA]
  have hA4 : truncR ((20 : ℝ) / 4) = 5 := by
    rw [truncR_of_nonneg (by norm_num)]
    rw [show ⌊(20 : ℝ) / 4⌋ = 5 by
      rw [Int.floor_eq_iff]
      constructor <;> norm_num]
    norm_num
  rw [hA4]
  have hB : truncR ((2 : ℝ) - 20 + 5) = -13 := by
    rw [truncR, if_neg (by norm_num)]
    rw [show ⌊-((2 : ℝ) - 20 + 5)⌋ = 13 by
      rw [Int.floor_eq_iff]
      constructor <;> norm_num]
    norm_num
  rw [hB]
  have hi0 : truncR (365.25 * ((2026 : ℝ) - 1 + 4716)) = 2462150 := by
    rw [truncR_of_nonneg (by norm_num)]
    rw [show ⌊(365.25 : ℝ) * ((2026 : ℝ) - 1 + 4716)⌋ = 2462150 by
      rw [Int.floor_eq_iff]
      constructor <;> norm_num]
    norm_num
  rw [hi0]
  have hi1 : truncR (30.6001 * ((2 : ℝ) + 12 + 1)) = 459 := by
    rw [truncR_of_nonneg (by norm_num)]
    rw [show ⌊(30.6001 : ℝ) * ((2 : ℝ) + 12 + 1)⌋ = 459 by
      rw [Int.floor_eq_iff]
      constructor <;> norm_num]
    norm_num
  rw [hi1]
  norm_num

theorem julianCentury_eval : julianCentury (2461086.5 : ℝ) = 6361 / 24350 := by
  rw [julianCentury]
  norm_num

theorem meanObliquity_eval_bounds :
    23.43589 ≤ meanObliquityOfTheEcliptic (6361 / 24350) ∧
      meanObliquityOfTheEcliptic (6361 / 24350) ≤ 23.43590 := by
  rw [meanObliquityOfTheEcliptic]
  constructor <;> norm_num

theorem epsAppRad_bounds :
    0 < degToRad (apparentObliquityOfTheEcliptic (julianCentury (2461086.5 : ℝ))
        (meanObliquityOfTheEcliptic (julianCentury (2461086.5 : ℝ)))) ∧
      degToRad (apparentObliquityOfTheEcliptic (julianCentury (2461086.5 : ℝ))
        (meanObliquityOfTheEcliptic (julianCentury (2461086.5 : ℝ)))) ≤ 0.40908 := by
  rw [julianCentury_eval]
  have he0 := meanObliquity_eval_bounds
  have hcos1 := Real.neg_one_le_cos (degToRad (125.04 - 1934.136 * (6361 / 24350 : ℝ)))
  have hcos2 := Real.cos_le_one (degToRad (125.04 - 1934.136 * (6361 / 24350 : ℝ)))
  have happ : 23.4333 ≤ apparentObliquityOfTheEcliptic (6361 / 24350)
        (meanObliquityOfTheEcliptic (6361 / 24350)) ∧
      apparentObliquityOfTheEcliptic (6361 / 24350)
        (meanObliquityOfTheEcliptic (6361 / 24350)) ≤ 23.4385 := by
    rw [apparentObliquityOfTheEcliptic]
    constructor <;> linarith [he0.1, he0.2]
  constructor
  · rw [degToRad]
    have hpos : 0 < apparentObliquityOfTheEcliptic (6361 / 24350)
        (meanObliquityOfTheEcliptic (6361 / 24350)) := by linarith [happ.1]
    have hmul := mul_pos hpos Real.pi_pos
    linarith
  · rw [degToRad]
    have h1 : apparentObliquityOfTheEcliptic (6361 / 24350)
          (meanObliquityOfTheEcliptic (6361 / 24350)) * Real.pi ≤ 23.4385 * 3.141593 :=
      mul_le_mul happ.2 Real.pi_lt_d6.le Real.pi_pos.le (by norm_num)
    linarith

theorem s_sq_bound :
    (Real.sin (degToRad (apparentObliquityOfTheEcliptic (julianCentury (2461086.5 : ℝ))
        (meanObliquityOfTheEcliptic (julianCentury (2461086.5 : ℝ))))) *
      Real.sin (degToRad (apparentSolarLongitude (julianCentury (2461086.5 : ℝ))
        (meanSolarLongitude (julianCentury (2461086.5 : ℝ)))))) ^ 2 ≤ 0.1674 := by
  obtain ⟨hx1, hx2⟩ := epsAppRad_bounds
  set x := degToRad (apparentObliquityOfTheEcliptic (julianCentury (2461086.5 : ℝ))
    (meanObliquityOfTheEcliptic (julianCentury (2461086.5 : ℝ)))) with hxdef
  set y := degToRad (apparentSolarLongitude (julianCentury (2461086.5 : ℝ))
    (meanSolarLongitude (julianCentury (2461086.5 : ℝ)))) with hydef
  have hs1 : 0 ≤ Real.sin x :=
    (Real.sin_pos_of_pos_of_lt_pi hx1 (by linarith [Real.pi_gt_three])).le
  have hs2 : Real.sin x ≤ 0.40908 := le_trans (Real.sin_lt hx1).le hx2
  have hsy : Real.sin y ^ 2 ≤ 1 := Real.sin_sq_le_one y
  have h1 : Real.sin x ^ 2 ≤ 0.40908 ^ 2 := by nlinarith
  have h2 : (Real.sin x * Real.sin y) ^ 2 = Real.sin x ^ 2 * Real.sin y ^ 2 := by ring
  rw [h2]
  have h3 : Real.sin x ^ 2 * Real.sin y ^ 2 ≤ Real.sin x ^ 2 * 1 :=
    mul_le_mul_of_nonneg_left hsy (sq_nonneg _)
  nlinarith

theorem sin_sunrise_alt_bound : |Real.sin (degToRad (-(0.833 : ℝ)))| ≤ 0.015 := by
  have h : degToRad (-(0.833 : ℝ)) = -(0.833 * Real.pi / 180) := by
    rw [degToRad]
    ring
  rw [h, Real.sin_neg, abs_neg]
  have hx : 0 < 0.833 * Real.pi / 180 := by positivity
  have hlt : 0.833 * Real.pi / 180 < Real.pi := by nlinarith [Real.pi_gt_three, Real.pi_lt_d6]
  rw [abs_of_pos (Real.sin_pos_of_pos_of_lt_pi hx hlt)]
  calc Real.sin (0.833 * Real.pi / 180) ≤ 0.833 * Real.pi / 180 := (Real.sin_lt hx).le
    _ ≤ 0.015 := by nlinarith [Real.pi_lt_d6]

theorem c5_sunset_isSome :
    ∃ t, (localPrayerTimes 1771113600000 0 0 0 {}).sunset = some t := by
  have hy : ((getUTCFullYear 1771113600000 : ℤ) : ℝ) = 2026 := by
    have h : getUTCFullYear 1771113600000 = 2026 := by decide
    rw [h]
    norm_num
  have hmo : ((getUTCMonth 1771113600000 + 1 : ℤ) : ℝ) = 2 := by
    have h : getUTCMonth 1771113600000 = 1 := by decide
    rw [h]
    norm_num
  have hda : ((getUTCDate 1771113600000 : ℤ) : ℝ) = 15 := by
    have h : getUTCDate 1771113600000 = 15 := by decide
    rw [h]
    norm_num
  simp only [localPrayerTimes]
  rw [hy, hmo, hda, julianDay_2026_02_15]
  apply option_map_isSome
  apply correctedHourAngle_isSome_of _
    (Real.sin (degToRad (apparentObliquityOfTheEcliptic (julianCentury (2461086.5 : ℝ))
        (meanObliquityOfTheEcliptic (julianCentury (2461086.5 : ℝ))))) *
      Real.sin (degToRad (apparentSolarLongitude (julianCentury (2461086.5 : ℝ))
        (meanSolarLongitude (julianCentury (2461086.5 : ℝ))))))
  · rfl
  · rfl
  · exact s_sq_bound
  · exact sin_sunrise_alt_bound

/-- C5 (counterexample): with `k = 24` the claim forces equal outputs (every
event shifted by 24 ≡ 0 hours mod 24), but at 2026-02-15, latitude 0,
longitude 0 the floor-formatted sunset string differs between timezone 24
and timezone 0, because `formatTimeFloor` renders the unwrapped hour. -/
theorem timezone_shift_string_counterexample :
    (calculatePrayerTimes 1771113600000 0 0 24 {}).sunset ≠
      (calculatePrayerTimes 1771113600000 0 0 0 {}).sunset := by
  have hmixA : (calculatePrayerTimes 1771113600000 0 0 24 {}).sunset =
      jsFormatFloor ((localPrayerTimes 1771113600000 0 0 24 {}).sunset) := by
    simp [calculatePrayerTimes]
  have hmixB : (calculatePrayerTimes 1771113600000 0 0 0 {}).sunset =
      jsFormatFloor ((localPrayerTimes 1771113600000 0 0 0 {}).sunset) := by
    simp [calculatePrayerTimes]
  obtain ⟨t, ht⟩ := c5_sunset_isSome
  have hshift : (localPrayerTimes 1771113600000 0 0 24 {}).sunset =
      Option.map (· + 24) ((localPrayerTimes 1771113600000 0 0 0 {}).sunset) := by
    have h := localPrayerTimes_shift 1771113600000 0 0 0 24 {}
    rw [zero_add] at h
    rw [h]
    rfl
  rw [hmixA, hmixB, hshift, ht]
  show formatTimeFloor (t + 24) ≠ formatTimeFloor t
  exact formatTimeFloor_add24_ne t
